import Mathlib

/-!
Shallow embedding of `src/output/plot_gitdata.py` (repository acycliq/dpm).

The script is a straight-line plotly program:
  1. `tls.set_credentials_file(username='annevanrossum', api_key='2z29vr6xo7')`
  2. `z_data = pd.read_csv('https://raw.githubusercontent.com/.../mt_bruno_elevation.csv')`
  3. `data = [go.Surface(z=z_data.as_matrix())]`
  4. `layout = go.Layout(title='Mt Bruno Elevation', autosize=False, width=500,
       height=500, margin=dict(l=65, r=50, b=65, t=90))`
  5. `fig = go.Figure(data=data, layout=layout)`
  6. `py.iplot(fig, filename='elevations-3d-surface')`

The embedding models the semantics of `pd.read_csv` with its default arguments
as the script calls it, since the script passes no keyword arguments:
  * the first row of the CSV is consumed as the column header (`header='infer'`
    defaults to row 0);
  * blank lines are skipped (`skip_blank_lines=True`);
  * the number of columns is fixed by the header row; a data row with more
    fields than the header is a parser error; a data row with fewer fields is
    padded with missing values (NaN);
  * under the default NA filter, a field equal to one of pandas' default NA
    sentinels (the empty field, `NaN`, `nan`, `NULL`, `null`, `N/A`, `NA`,
    `None`, `#N/A`, `-NaN`, `1.#IND`, ...) is a missing value (NaN);
  * a column whose present fields are all numeric literals or NA sentinels
    gets a numeric dtype; otherwise the column keeps every non-sentinel field
    as its original string (object dtype) — no coercion of non-numeric text
    to zero or NaN.
Numeric literals are modelled over ℚ with the plain decimal grammar
(optional sign, digits, optional fractional part); exponent forms and the
index-column inference pandas performs when every data row has exactly one
more field than the header are outside the inputs any claim touches and are
not modelled. Network fetching and the two remote calls are modelled as an
effect trace, with the reachability of the CSV resource as an `Option String`
environment parameter.
-/

/-- A cell of the parsed data frame: a numeric value, a missing value (NaN),
or a non-numeric field kept as its original text (object dtype). -/
inductive Cell where
  | num (q : ℚ)
  | nan
  | str (s : String)
  deriving DecidableEq

/-- Errors of the load step (the spec's `LoadError` taxonomy). -/
inductive LoadError where
  | networkError
  | emptyData
  | parserError
  deriving DecidableEq

/-- Value of a run of digit characters, most significant first. -/
def natOfDigits (cs : List Char) : Nat :=
  cs.foldl (fun a c => 10 * a + (c.toNat - 48)) 0

/-- Parse an unsigned decimal literal: digits, optionally followed by a dot
and further digits, with at least one digit overall. -/
def parseUnsigned (cs : List Char) : Option ℚ :=
  let ip := cs.takeWhile Char.isDigit
  match cs.dropWhile Char.isDigit with
  | [] => if ip.isEmpty then none else some ((natOfDigits ip : ℚ))
  | '.' :: fp =>
      if fp.all Char.isDigit && !(ip.isEmpty && fp.isEmpty) then
        some ((natOfDigits ip : ℚ) + (natOfDigits fp : ℚ) / ((10 : ℚ) ^ fp.length))
      else none
  | _ => none

/-- Parse a signed decimal literal. -/
def parseNumQ (s : String) : Option ℚ :=
  match s.toList with
  | '-' :: cs => (parseUnsigned cs).map Neg.neg
  | '+' :: cs => parseUnsigned cs
  | cs => parseUnsigned cs

/-- A field is numeric when it parses as a decimal literal. -/
def isNumeric (s : String) : Bool :=
  (parseNumQ s).isSome

/-- Numeric value of a field (0 when not numeric; used only on numeric fields). -/
def parseRat (s : String) : ℚ :=
  (parseNumQ s).getD 0

/-- Split a character list at every occurrence of `c` (separators are not
kept; `n` separators yield `n + 1` chunks). -/
def splitOnChar (c : Char) : List Char → List (List Char)
  | [] => [[]]
  | x :: xs =>
    match splitOnChar c xs with
    | [] => if x = c then [[], []] else [[x]]
    | r :: rs => if x = c then [] :: r :: rs else (x :: r) :: rs

/-- The raw CSV table: the non-blank lines, each split at commas
(`skip_blank_lines=True` and the comma separator of `pd.read_csv`). -/
def parseTable (s : String) : List (List String) :=
  ((splitOnChar '\n' s.toList).filter (fun l => !l.isEmpty)).map
    (fun l => (splitOnChar ',' l).map String.mk)

/-- Pandas' default NA sentinel strings: the default `na_values` of
`pd.read_csv` with the NA filter on. A field equal to one of these is read as
a missing value. -/
def naValues : List String :=
  ["", "#N/A", "#N/A N/A", "#NA", "-1.#IND", "-1.#QNAN", "-NaN", "-nan",
    "1.#IND", "1.#QNAN", "N/A", "NA", "NULL", "NaN", "None", "n/a", "nan", "null"]

/-- Is a field one of the default NA sentinels? -/
def isNAValue (s : String) : Bool :=
  decide (s ∈ naValues)

/-- Column `j` has a numeric dtype when every present field in it is an NA
sentinel (missing) or a numeric literal. -/
def colNumeric (rows : List (List String)) (j : Nat) : Bool :=
  rows.all (fun r =>
    match r.get? j with
    | none => true
    | some s => isNAValue s || isNumeric s)

/-- Value of one field under the column's dtype: a missing field or an NA
sentinel is NaN; a field of a numeric column is its numeric value; a field of
an object column keeps its text. -/
def mkCell (numeric : Bool) (o : Option String) : Cell :=
  match o with
  | none => Cell.nan
  | some s =>
    if isNAValue s then Cell.nan
    else if numeric then Cell.num (parseRat s) else Cell.str s

/-- The data frame produced by `pd.read_csv`: the header row and the typed
data rows. -/
structure DataFrame where
  header : List String
  rows : List (List Cell)
  deriving DecidableEq

/-- The typed data rows built from the header and the raw data rows: each row
is padded or truncated to the header's width, and each cell is typed by its
column's dtype. -/
def mkRows (hdr : List String) (rest : List (List String)) : List (List Cell) :=
  rest.map (fun r => (List.range hdr.length).map (fun j => mkCell (colNumeric rest j) (r.get? j)))

/-- `pd.read_csv` on an already-split table: an empty input is an error; the
first row becomes the header; a data row wider than the header is a parser
error; otherwise the typed data rows are built. -/
def tableToDf (t : List (List String)) : Except LoadError DataFrame :=
  match t with
  | [] => .error .emptyData
  | hdr :: rest =>
    if rest.any (fun r => decide (hdr.length < r.length)) then .error .parserError
    else .ok ⟨hdr, mkRows hdr rest⟩

/-- `pd.read_csv` on the CSV text fetched from the URL. -/
def read_csv (s : String) : Except LoadError DataFrame :=
  tableToDf (parseTable s)

/-- `z_data.as_matrix()`: the values of the data frame as a matrix. -/
def as_matrix (df : DataFrame) : List (List Cell) :=
  df.rows

/-- `go.Surface(z=...)`: the surface trace holds the grid. -/
structure Surface where
  z : List (List Cell)
  deriving DecidableEq

/-- The `margin=dict(l=65, r=50, b=65, t=90)` record. -/
structure Margin where
  l : Nat
  r : Nat
  b : Nat
  t : Nat
  deriving DecidableEq

/-- `go.Layout(...)` as the script builds it. -/
structure Layout where
  title : String
  autosize : Bool
  width : Nat
  height : Nat
  margin : Margin
  deriving DecidableEq

/-- `go.Figure(data=..., layout=...)`. -/
structure Figure where
  data : List Surface
  layout : Layout
  deriving DecidableEq

/-- The layout literal of lines 19-30 of the script. -/
def scriptLayout : Layout :=
  { title := "Mt Bruno Elevation"
    autosize := false
    width := 500
    height := 500
    margin := { l := 65, r := 50, b := 65, t := 90 } }

/-- Lines 14-31: wrap a grid in one surface trace and the fixed layout. -/
def buildFigure (z : List (List Cell)) : Figure :=
  { data := [{ z := z }], layout := scriptLayout }

/-- The observable side effects of the script, in program order. -/
inductive Effect where
  | writeCredentialsFile (username apiKey : String)
  | httpGet (url : String)
  | renderSubmit (fig : Figure) (filename : String)
  deriving DecidableEq

def plotlyUsername : String := "annevanrossum"

def plotlyApiKey : String := "2z29vr6xo7"

def csvUrl : String :=
  "https://raw.githubusercontent.com/plotly/datasets/master/api_docs/mt_bruno_elevation.csv"

def plotFilename : String := "elevations-3d-surface"

deriving instance DecidableEq for Except

/-- The outcome of one run: its effect trace and either the figure it built
and submitted or the load error that stopped it. -/
structure RunResult where
  effects : List Effect
  outcome : Except LoadError Figure
  deriving DecidableEq

/-- One run of the script. `fetched` is the environment: `none` when the CSV
resource is unreachable, `some content` when the HTTP GET returns `content`.
The script writes the credentials file, performs the GET, and — only when the
load step succeeded — builds the figure and submits it for rendering. -/
def runScript (fetched : Option String) : RunResult :=
  let pre : List Effect :=
    [Effect.writeCredentialsFile plotlyUsername plotlyApiKey, Effect.httpGet csvUrl]
  match fetched with
  | none => ⟨pre, .error .networkError⟩
  | some content =>
    match read_csv content with
    | .error e => ⟨pre, .error e⟩
    | .ok df =>
      let fig := buildFigure (as_matrix df)
      ⟨pre ++ [Effect.renderSubmit fig plotFilename], .ok fig⟩

/-- The grid the loader produced, when it succeeded. -/
def gridOf (s : String) : Option (List (List Cell)) :=
  match read_csv s with
  | .ok df => some (as_matrix df)
  | .error _ => none

/-- Row count of the loaded grid, when the load succeeded. -/
def gridRowCount (s : String) : Option Nat :=
  (gridOf s).map List.length

/-- Is an effect a write to local storage? Only the credentials-file write is. -/
def isLocalWrite : Effect → Bool
  | .writeCredentialsFile _ _ => true
  | _ => false

/-- Is an effect a render submission? -/
def isRenderSubmit : Effect → Bool
  | .renderSubmit _ _ => true
  | _ => false

/-- The data frame of the ragged CSV `"a,b,c\n1,2\n3,4,5"`: the short row is
padded with a missing value. -/
def raggedDf : DataFrame :=
  ⟨["a", "b", "c"],
    [[Cell.num 1, Cell.num 2, Cell.nan], [Cell.num 3, Cell.num 4, Cell.num 5]]⟩

/-- The data frame of the CSV `"1,2\n3,4"`: the first line is the header. -/
def smallDf : DataFrame :=
  ⟨["1", "2"], [[Cell.num 3, Cell.num 4]]⟩

-- ### Helper lemmas about the loader

-- A successful `tableToDf` comes from a nonempty table and is the header with
-- the typed data rows.
theorem tableToDf_ok_elim (t : List (List String)) (df : DataFrame)
    (h : tableToDf t = .ok df) :
    ∃ hdr rest, t = hdr :: rest ∧ df = ⟨hdr, mkRows hdr rest⟩ := by
  cases t with
  | nil => simp [tableToDf] at h
  | cons hdr rest =>
    refine ⟨hdr, rest, rfl, ?_⟩
    unfold tableToDf at h
    cases hany : rest.any (fun r => decide (hdr.length < r.length)) with
    | true =>
      simp only [hany] at h
      simp at h
    | false =>
      simp only [hany] at h
      simp at h
      exact h.symm

-- When no data row is wider than the header, the load succeeds.
theorem tableToDf_ok_mk (hdr : List String) (rest : List (List String))
    (hlen : ∀ r ∈ rest, r.length ≤ hdr.length) :
    tableToDf (hdr :: rest) = .ok ⟨hdr, mkRows hdr rest⟩ := by
  have hany : rest.any (fun r => decide (hdr.length < r.length)) = false := by
    rw [List.any_eq_false]
    intro r hr
    simp only [decide_eq_true_eq]
    exact not_lt.mpr (hlen r hr)
  simp [tableToDf, hany]

theorem length_mkRows (hdr : List String) (rest : List (List String)) :
    (mkRows hdr rest).length = rest.length := by
  simp [mkRows]

theorem mkRows_row_length (hdr : List String) (rest : List (List String))
    (row : List Cell) (hrow : row ∈ mkRows hdr rest) : row.length = hdr.length := by
  unfold mkRows at hrow
  obtain ⟨r, hr, rfl⟩ := List.mem_map.mp hrow
  simp

theorem mkRows_cell (hdr : List String) (rest : List (List String)) (i j : Nat)
    (hi : i < rest.length) (hj : j < hdr.length) :
    ((mkRows hdr rest).getD i []).getD j Cell.nan =
      mkCell (colNumeric rest j) ((rest.getD i []).get? j) := by
  have hrEq : rest.getD i [] = rest[i] := by
    rw [List.getD_eq_getElem?_getD, List.getElem?_eq_getElem hi]
    rfl
  rw [hrEq]
  unfold mkRows
  simp only [List.getD_eq_getElem?_getD, List.getElem?_map, List.getElem?_eq_getElem hi,
    List.getElem?_range hj, Option.map_some', Option.getD_some]

-- A column all of whose fields are numeric gets the numeric dtype.
theorem colNumeric_true (rest : List (List String)) (j : Nat)
    (h : ∀ r ∈ rest, ∀ s ∈ r, isNumeric s = true) :
    colNumeric rest j = true := by
  unfold colNumeric
  rw [List.all_eq_true]
  intro r hr
  cases hc : r.get? j with
  | none => simp [hc]
  | some s => simp [hc, h r hr s (List.get?_mem hc)]

-- None of the NA sentinels is a numeric literal.
theorem naValues_not_numeric : ∀ s ∈ naValues, isNumeric s = false := by
  decide

theorem isNAValue_false_of_isNumeric (s : String) (h : isNumeric s = true) :
    isNAValue s = false := by
  cases hna : isNAValue s with
  | false => rfl
  | true =>
    unfold isNAValue at hna
    rw [naValues_not_numeric s (of_decide_eq_true hna)] at h
    exact absurd h (by decide)

-- Two small list facts used to reason about in-range `getD` accesses.
theorem get?_eq_some_getD {α : Type} (l : List α) (j : Nat) (d : α) (hj : j < l.length) :
    l.get? j = some (l.getD j d) := by
  rw [List.getD_eq_getElem?_getD, List.get?_eq_getElem?, List.getElem?_eq_getElem hj]
  rfl

theorem getD_mem_of_lt {α : Type} (l : List α) (j : Nat) (d : α) (hj : j < l.length) :
    l.getD j d ∈ l := by
  rw [List.getD_eq_getElem?_getD, List.getElem?_eq_getElem hj]
  exact List.getElem_mem hj

-- ### Claims

/-- C1 (counterexample): the CSV `"1,2,3\n4,5,6\n7,8,9"` has 3 rows, all
numeric, but the loaded grid has 2 rows, not 3: `pd.read_csv` consumes the
first CSV row as the column header. -/
theorem C1_counterexample :
    (parseTable "1,2,3\n4,5,6\n7,8,9").length = 3 ∧
    gridRowCount "1,2,3\n4,5,6\n7,8,9" = some 2 ∧
    gridRowCount "1,2,3\n4,5,6\n7,8,9" ≠ some 3 := by
  decide

/-- C1 (amended): for every CSV table with R ≥ 1 rows and C numeric columns,
the load succeeds and the resulting grid has R − 1 rows (the first CSV row is
consumed as the column header) and C columns, and grid cell (i, j) equals the
numeric value of CSV cell (i + 1, j). -/
theorem C1_amended_grid_shape (t : List (List String)) (C : Nat)
    (hne : t ≠ [])
    (hC : ∀ r ∈ t, r.length = C)
    (hnum : ∀ r ∈ t, ∀ s ∈ r, isNumeric s = true) :
    ∃ df, tableToDf t = .ok df ∧
      (as_matrix df).length = t.length - 1 ∧
      (as_matrix df).all (fun row => row.length == C) = true ∧
      ∀ i j, i + 1 < t.length → j < C →
        ((as_matrix df).getD i []).getD j Cell.nan =
          Cell.num (parseRat ((t.getD (i + 1) []).getD j "")) := by
  cases t with
  | nil => exact absurd rfl hne
  | cons hdr rest =>
    have hhdr : hdr.length = C := hC hdr (List.mem_cons_self hdr rest)
    have hrest : ∀ r ∈ rest, r.length = C := fun r hr => hC r (List.mem_cons_of_mem hdr hr)
    have hnumrest : ∀ r ∈ rest, ∀ s ∈ r, isNumeric s = true :=
      fun r hr => hnum r (List.mem_cons_of_mem hdr hr)
    refine ⟨⟨hdr, mkRows hdr rest⟩,
      tableToDf_ok_mk hdr rest (fun r hr => le_of_eq ((hrest r hr).trans hhdr.symm)), ?_, ?_, ?_⟩
    · simp [as_matrix, length_mkRows]
    · rw [List.all_eq_true]
      intro row hrow
      simp only [as_matrix] at hrow
      simp [mkRows_row_length hdr rest row hrow, hhdr]
    · intro i j hi hj
      have hi' : i < rest.length := by
        simp only [List.length_cons] at hi
        omega
      have hj' : j < hdr.length := by rw [hhdr]; exact hj
      have hrEq : rest.getD i [] = rest[i] := by
        rw [List.getD_eq_getElem?_getD, List.getElem?_eq_getElem hi']
        rfl
      have hmem : rest.getD i [] ∈ rest := by
        rw [hrEq]
        exact List.getElem_mem hi'
      have hjr : j < (rest.getD i []).length := by
        rw [hrest _ hmem]
        exact hj
      have hget : (rest.getD i []).get? j = some ((rest.getD i []).getD j "") :=
        get?_eq_some_getD (rest.getD i []) j "" hjr
      have hcellmem : (rest.getD i []).getD j "" ∈ rest.getD i [] :=
        getD_mem_of_lt (rest.getD i []) j "" hjr
      have hs : isNumeric ((rest.getD i []).getD j "") = true :=
        hnumrest _ hmem _ hcellmem
      have hs0 := isNAValue_false_of_isNumeric _ hs
      simp only [as_matrix]
      rw [mkRows_cell hdr rest i j hi' hj', List.getD_cons_succ, hget,
        colNumeric_true rest j hnumrest]
      generalize (rest.getD i []).getD j "" = s at hs0 ⊢
      simp [mkCell, hs0]

/-- C1 (witness): the amended shape property at the 3×3 all-numeric table. -/
theorem C1_amended_grid_shape_witness :
    ∃ df, tableToDf [["1", "2", "3"], ["4", "5", "6"], ["7", "8", "9"]] = .ok df ∧
      (as_matrix df).length = [["1", "2", "3"], ["4", "5", "6"], ["7", "8", "9"]].length - 1 ∧
      (as_matrix df).all (fun row => row.length == 3) = true ∧
      ∀ i j, i + 1 < [["1", "2", "3"], ["4", "5", "6"], ["7", "8", "9"]].length → j < 3 →
        ((as_matrix df).getD i []).getD j Cell.nan =
          Cell.num (parseRat
            (([["1", "2", "3"], ["4", "5", "6"], ["7", "8", "9"]].getD (i + 1) []).getD j "")) :=
  C1_amended_grid_shape [["1", "2", "3"], ["4", "5", "6"], ["7", "8", "9"]] 3
    (by decide) (by decide) (by decide)

/-- C2 (counterexample): on the CSV `"1,2,3\n4,5,6\n7,8,9"` the loaded grid is
`[[4,5,6],[7,8,9]]`, not `[[1,2,3],[4,5,6],[7,8,9]]`: the first row is consumed
as the column header. -/
theorem C2_counterexample :
    gridOf "1,2,3\n4,5,6\n7,8,9" =
      some [[Cell.num 4, Cell.num 5, Cell.num 6], [Cell.num 7, Cell.num 8, Cell.num 9]] ∧
    gridOf "1,2,3\n4,5,6\n7,8,9" ≠
      some [[Cell.num 1, Cell.num 2, Cell.num 3], [Cell.num 4, Cell.num 5, Cell.num 6],
        [Cell.num 7, Cell.num 8, Cell.num 9]] := by
  decide

/-- C2 (amended): on the CSV `"1,2,3\n4,5,6\n7,8,9"` the pipeline produces the
grid `[[4,5,6],[7,8,9]]` (the first row becomes the column header), wraps it in
a figure with exactly one surface trace referencing that grid, and submits that
figure for rendering exactly once under the name `elevations-3d-surface`. -/
theorem C2_amended_pipeline :
    (runScript (some "1,2,3\n4,5,6\n7,8,9")).outcome =
      .ok (buildFigure
        [[Cell.num 4, Cell.num 5, Cell.num 6], [Cell.num 7, Cell.num 8, Cell.num 9]]) ∧
    (buildFigure
        [[Cell.num 4, Cell.num 5, Cell.num 6], [Cell.num 7, Cell.num 8, Cell.num 9]]).data =
      [⟨[[Cell.num 4, Cell.num 5, Cell.num 6], [Cell.num 7, Cell.num 8, Cell.num 9]]⟩] ∧
    (runScript (some "1,2,3\n4,5,6\n7,8,9")).effects.filter isRenderSubmit =
      [Effect.renderSubmit
        (buildFigure
          [[Cell.num 4, Cell.num 5, Cell.num 6], [Cell.num 7, Cell.num 8, Cell.num 9]])
        "elevations-3d-surface"] := by
  decide

/-- C4: for every grid, the figure's layout carries the fixed constants
width 500, height 500, autosize false, title `Mt Bruno Elevation`, margins
l 65 / r 50 / b 65 / t 90, and the layout is independent of the input grid. -/
theorem C4_layout_constants (z : List (List Cell)) :
    (buildFigure z).layout.width = 500 ∧ (buildFigure z).layout.height = 500 ∧
    (buildFigure z).layout.autosize = false ∧
    (buildFigure z).layout.title = "Mt Bruno Elevation" ∧
    (buildFigure z).layout.margin = ⟨65, 50, 65, 90⟩ ∧
    ∀ w : List (List Cell), (buildFigure z).layout = (buildFigure w).layout :=
  ⟨rfl, rfl, rfl, rfl, rfl, fun _ => rfl⟩

/-- C5: when the CSV resource is unreachable, the run ends with a network
load error, its effect trace is only the credentials write and the HTTP GET,
and no render submission occurs (so no figure is built or submitted). -/
theorem C5_unreachable_no_render :
    (runScript none).outcome = .error LoadError.networkError ∧
    (runScript none).effects =
      [Effect.writeCredentialsFile plotlyUsername plotlyApiKey, Effect.httpGet csvUrl] ∧
    (runScript none).effects.filter isRenderSubmit = [] :=
  ⟨rfl, rfl, rfl⟩

/-- C6: the load-and-build stages are deterministic: two runs over the same
fetched CSV content that produce figures produce structurally identical
figures (same grid data and same layout). -/
theorem C6_pipeline_deterministic (c : String) (f₁ f₂ : Figure)
    (h₁ : (runScript (some c)).outcome = .ok f₁)
    (h₂ : (runScript (some c)).outcome = .ok f₂) :
    f₁.data = f₂.data ∧ f₁.layout = f₂.layout := by
  rw [h₁] at h₂
  injection h₂ with h
  rw [h]
  exact ⟨rfl, rfl⟩

/-- C6 (witness): determinism instantiated at the CSV `"1,2\n3,4"`. -/
theorem C6_pipeline_deterministic_witness :
    (buildFigure (as_matrix smallDf)).data = (buildFigure (as_matrix smallDf)).data ∧
    (buildFigure (as_matrix smallDf)).layout = (buildFigure (as_matrix smallDf)).layout :=
  C6_pipeline_deterministic "1,2\n3,4" (buildFigure (as_matrix smallDf))
    (buildFigure (as_matrix smallDf)) (by decide) (by decide)

/-- C7: the grid is created once from the parsed CSV and flows unchanged into
the figure: the run's outcome is exactly the figure built over the loaded
grid, that figure's single surface trace holds that grid, and every render
submission in the trace carries that same figure. -/
theorem C7_grid_reference (content : String) (df : DataFrame)
    (h : read_csv content = .ok df) :
    (runScript (some content)).outcome = .ok (buildFigure (as_matrix df)) ∧
    (buildFigure (as_matrix df)).data = [⟨as_matrix df⟩] ∧
    ∀ f n, Effect.renderSubmit f n ∈ (runScript (some content)).effects →
      f = buildFigure (as_matrix df) ∧ n = plotFilename := by
  have heff : (runScript (some content)).effects =
      [Effect.writeCredentialsFile plotlyUsername plotlyApiKey, Effect.httpGet csvUrl,
        Effect.renderSubmit (buildFigure (as_matrix df)) plotFilename] := by
    simp [runScript, h]
  have hout : (runScript (some content)).outcome = .ok (buildFigure (as_matrix df)) := by
    simp [runScript, h]
  refine ⟨hout, rfl, ?_⟩
  intro f n hmem
  rw [heff] at hmem
  simp at hmem
  exact hmem

/-- C7 (witness): the grid-reference property at the CSV `"1,2\n3,4"`. -/
theorem C7_grid_reference_witness :
    (runScript (some "1,2\n3,4")).outcome = .ok (buildFigure (as_matrix smallDf)) ∧
    (buildFigure (as_matrix smallDf)).data = [⟨as_matrix smallDf⟩] ∧
    ∀ f n, Effect.renderSubmit f n ∈ (runScript (some "1,2\n3,4")).effects →
      f = buildFigure (as_matrix smallDf) ∧ n = plotFilename :=
  C7_grid_reference "1,2\n3,4" smallDf (by decide)

/-- C8: figure construction is total pure data assembly: for every grid it
yields the figure with exactly one surface trace over that grid and the fixed
script layout, with no failure branch. -/
theorem C8_figure_total (z : List (List Cell)) :
    (buildFigure z).data = [⟨z⟩] ∧ (buildFigure z).layout = scriptLayout :=
  ⟨rfl, rfl⟩

/-- C9: on every run, the first effect — before any network request — is the
single write of the static username/API-key pair to the local plotly
credentials file, and that write is the only local-storage write in the
whole effect trace. -/
theorem C9_credentials_write_first (fetched : Option String) :
    (runScript fetched).effects.head? =
      some (Effect.writeCredentialsFile plotlyUsername plotlyApiKey) ∧
    (runScript fetched).effects.filter isLocalWrite =
      [Effect.writeCredentialsFile plotlyUsername plotlyApiKey] := by
  cases fetched with
  | none => exact ⟨rfl, rfl⟩
  | some c =>
    cases h : read_csv c with
    | error e => simp [runScript, h, isLocalWrite, List.filter]
    | ok df => simp [runScript, h, isLocalWrite, List.filter]

/-- C10: every grid the loader produces is rectangular: each of its rows has
exactly the header's number of columns, so a ragged CSV never yields a grid
whose rows differ in length. -/
theorem C10_grid_rectangular (content : String) (df : DataFrame)
    (h : read_csv content = .ok df) :
    (as_matrix df).all (fun row => row.length == df.header.length) = true := by
  unfold read_csv at h
  obtain ⟨hdr, rest, ht, hdf⟩ := tableToDf_ok_elim (parseTable content) df h
  subst hdf
  rw [List.all_eq_true]
  intro row hrow
  simp only [as_matrix] at hrow
  simp [mkRows_row_length hdr rest row hrow]

/-- C10 (witness): rectangularity at the ragged CSV `"a,b,c\n1,2\n3,4,5"`,
whose short row is padded to the 3-column width. -/
theorem C10_grid_rectangular_witness :
    (as_matrix raggedDf).all (fun row => row.length == raggedDf.header.length) = true :=
  C10_grid_rectangular "a,b,c\n1,2\n3,4,5" raggedDf (by decide)
